import Mathlib

/-!
Verification of `src/scripts/update_currency_data.py`.

A shallow embedding of the currency-data synchronization script.  Python
dictionaries keyed by strings are modelled as association lists
(`List (String × _)`) or lookup functions (`String → Option _`); the two
`datetime.now()` effects (the current calendar date used for status
decisions and the generation timestamp written into rows) are passed as
explicit string parameters; Python exceptions in the reference loaders are
modelled with `Except`.

Python compares date strings with `<`/`>=`, which is lexicographic
comparison of Unicode code points; `String.lt` of Lean does not reduce in
the kernel, so the same comparison is defined here by recursion on
`String.data` (`charsLt`, `pyLt`, `pyLe`).

`sorted(..., key=...)` of Python and `DataFrame.sort_values` (multi-key
sorts use a stable lexicographic sort) are stable sorts; a stable sort by a
total preorder has a unique result, so they are embedded with
`List.insertionSort`, which is stable.
-/

/-- One parsed `<currency>` element of a `<region>`: the dictionary built by
`parse_currency_xml` with keys `iso4217`, `from`, `to`, `tender`.  `from`
and `to` are `currency_elem.get(...)`, hence possibly `None`; `tender`
defaults to the string `"true"` when the attribute is absent. -/
structure CurrencyEntry where
  iso4217 : String
  from_ : Option String
  to_ : Option String
  tender : String
deriving DecidableEq

/-- One value of the `iso3166_data` mapping built by `fetch_iso3166_data`. -/
structure CountryInfo where
  alpha_2 : String
  alpha_3 : String
  name : String
  official_name : String
deriving DecidableEq

/-- One value of the `iso4217_data` mapping built by `fetch_iso4217_data`. -/
structure CurrencyInfo where
  code : String
  name : String
  numeric : String
deriving DecidableEq

/-- Python truthiness of an optional string: `None` and `""` are falsy. -/
def pyFalsy : Option String → Bool
  | none => true
  | some s => s = ""

/-- Python `x or d` where `x` is an optional string: yields `d` when `x` is
`None` or empty. -/
def pyOr (x : Option String) (d : String) : String :=
  match x with
  | none => d
  | some s => if s = "" then d else s

/-- Lexicographic strict comparison of code-point lists, exactly the Python
`<` on strings. -/
def charsLt : List Char → List Char → Bool
  | [], [] => false
  | [], _ :: _ => true
  | _ :: _, [] => false
  | a :: as, b :: bs => if a < b then true else if b < a then false else charsLt as bs

/-- Python `a < b` on strings. -/
def pyLt (a b : String) : Bool := charsLt a.data b.data

/-- Python `a <= b` on strings (equivalently `b >= a`). -/
def pyLe (a b : String) : Bool := !(pyLt b a)

/-- A record of `pycountry.countries`: `official_name` is accessed with
`getattr(country, "official_name", country.name)`, i.e. it may be absent. -/
structure PycCountry where
  alpha_2 : String
  alpha_3 : String
  name : String
  official_name : Option String
deriving DecidableEq

/-- A record of `pycountry.currencies`. -/
structure PycCurrency where
  alpha_3 : String
  name : String
  numeric : String
deriving DecidableEq

/-- `fetch_iso3166_data`: builds the country mapping from the pycountry
dataset; the surrounding `try`/`except` returns the empty mapping on any
failure, modelled by the `Except.error` case of the source argument. -/
def fetch_iso3166_data (src : Except String (List PycCountry)) :
    List (String × CountryInfo) :=
  match src with
  | .error _ => []
  | .ok cs =>
    cs.map fun c =>
      (c.alpha_2,
       { alpha_2 := c.alpha_2, alpha_3 := c.alpha_3, name := c.name,
         official_name := c.official_name.getD c.name })

/-- `fetch_iso4217_data`: builds the currency mapping from the pycountry
dataset; the surrounding `try`/`except` returns the empty mapping on any
failure. -/
def fetch_iso4217_data (src : Except String (List PycCurrency)) :
    List (String × CurrencyInfo) :=
  match src with
  | .error _ => []
  | .ok cs =>
    cs.map fun c =>
      (c.alpha_3, { code := c.alpha_3, name := c.name, numeric := c.numeric })

/-- `determine_current_currency`: scans the entries of the region in their given
order; skips entries whose `tender` is the string `"false"`; returns the
first remaining entry whose `to` is falsy (`if not currency["to"]`) or whose
`to` date compares `>=` the current date. -/
def determine_current_currency (current_date : String) :
    List CurrencyEntry → Option CurrencyEntry
  | [] => none
  | currency :: rest =>
    if currency.tender = "false" then determine_current_currency current_date rest
    else
      match currency.to_ with
      | none => some currency
      | some to_date =>
        if to_date = "" then some currency
        else if pyLe current_date to_date then some currency
        else determine_current_currency current_date rest

/-- The sort key of `get_all_currencies`: `x["from"] or "0000-01-01"`. -/
def fromKey (currency : CurrencyEntry) : String := pyOr currency.from_ "0000-01-01"

/-- Ascending comparison by `fromKey`, the order used by
`sorted(all_currencies, key=lambda x: x["from"] or "0000-01-01")`. -/
def fromLE (a b : CurrencyEntry) : Prop := pyLe (fromKey a) (fromKey b) = true

instance : DecidableRel fromLE := fun a b => by unfold fromLE; infer_instance

/-- `get_all_currencies`: keeps entries whose `tender` is not `"false"`,
then stable-sorts ascending by `fromKey`. -/
def get_all_currencies (currencies : List CurrencyEntry) : List CurrencyEntry :=
  List.insertionSort fromLE (currencies.filter fun c => ¬ c.tender = "false")

/-- `is_valid_region`: `country_info.get("name", "Unknown")` resolves to
`"Unknown"` when the record is absent; the region is invalid when the
resolved name is `"Unknown"` or empty. -/
def is_valid_region (_region_code : String) (country_info : Option CountryInfo) : Bool :=
  match country_info with
  | none => false
  | some ci => ¬ (ci.name = "Unknown" ∨ ci.name = "")

/-- A row of `current_currencies.csv`. -/
structure CurrentRow where
  country_code : String
  country_name : String
  official_country_name : String
  iso_alpha3_code : String
  currency_code : String
  currency_name : String
  active_since : String
  last_updated : String
deriving DecidableEq

/-- A row of `historical_currencies.csv`. -/
structure HistoricalRow where
  country_code : String
  country_name : String
  official_country_name : String
  iso_alpha3_code : String
  currency_code : String
  currency_name : String
  active_from : String
  active_until : String
  status : String
  last_updated : String
deriving DecidableEq

/-- The status computation duplicated inline in both historical generators:
`"Active"` when `to` is falsy or `to >= current_date`, else `"Historical"`. -/
def historical_status (current_date : String) (currency : CurrencyEntry) : String :=
  match currency.to_ with
  | none => "Active"
  | some to_date =>
    if to_date = "" then "Active"
    else if pyLe current_date to_date then "Active"
    else "Historical"

/-- The loop body of `generate_current_currencies_csv` for one
`(region_code, currencies)` item of the parsed data. -/
def current_region_row (iso3166_data : String → Option CountryInfo)
    (iso4217_data : String → Option CurrencyInfo) (current_date last_updated : String)
    (rc : String × List CurrencyEntry) : Option CurrentRow :=
  match iso3166_data rc.1 with
  | none => none
  | some country_info =>
    if is_valid_region rc.1 (some country_info) then
      match determine_current_currency current_date rc.2 with
      | none => none
      | some current_currency =>
        some
          { country_code := rc.1,
            country_name := country_info.name,
            official_country_name := country_info.official_name,
            iso_alpha3_code := country_info.alpha_3,
            currency_code := current_currency.iso4217,
            currency_name :=
              match iso4217_data current_currency.iso4217 with
              | some ci => ci.name
              | none => current_currency.iso4217,
            active_since := pyOr current_currency.from_ "Unknown",
            last_updated := last_updated }
    else none

/-- `generate_current_currencies_csv` over the parsed region data. -/
def generate_current_currencies_csv (iso3166_data : String → Option CountryInfo)
    (iso4217_data : String → Option CurrencyInfo) (current_date last_updated : String)
    (currency_data : List (String × List CurrencyEntry)) : List CurrentRow :=
  currency_data.filterMap (current_region_row iso3166_data iso4217_data current_date last_updated)

/-- The row built by `generate_historical_currencies_csv` for one tender
currency entry of a valid region. -/
def mkHistoricalRow (iso4217_data : String → Option CurrencyInfo)
    (current_date last_updated region_code : String) (country_info : CountryInfo)
    (currency : CurrencyEntry) : HistoricalRow :=
  { country_code := region_code,
    country_name := country_info.name,
    official_country_name := country_info.official_name,
    iso_alpha3_code := country_info.alpha_3,
    currency_code := currency.iso4217,
    currency_name :=
      match iso4217_data currency.iso4217 with
      | some ci => ci.name
      | none => currency.iso4217,
    active_from := pyOr currency.from_ "Unknown",
    active_until := pyOr currency.to_ "",
    status := historical_status current_date currency,
    last_updated := last_updated }

/-- The loop body of `generate_historical_currencies_csv` for one
`(region_code, currencies)` item: the rows appended for that region. -/
def historical_region_rows (iso3166_data : String → Option CountryInfo)
    (iso4217_data : String → Option CurrencyInfo) (current_date last_updated : String)
    (rc : String × List CurrencyEntry) : List HistoricalRow :=
  match iso3166_data rc.1 with
  | none => []
  | some country_info =>
    if is_valid_region rc.1 (some country_info) then
      (get_all_currencies rc.2).map
        (mkHistoricalRow iso4217_data current_date last_updated rc.1 country_info)
    else []

/-- The unsorted row list of `generate_historical_currencies_csv` (before
`sort_values`). -/
def historical_rows (iso3166_data : String → Option CountryInfo)
    (iso4217_data : String → Option CurrencyInfo) (current_date last_updated : String)
    (currency_data : List (String × List CurrencyEntry)) : List HistoricalRow :=
  currency_data.flatMap
    (historical_region_rows iso3166_data iso4217_data current_date last_updated)

/-- The row order of `df.sort_values(["country_code", "status", "active_from"],
ascending=[True, False, True])`: country code ascending, then status
DESCENDING by string comparison, then `active_from` ascending. -/
def histLE (a b : HistoricalRow) : Prop :=
  pyLt a.country_code b.country_code = true ∨
    (a.country_code = b.country_code ∧
      (pyLt b.status a.status = true ∨
        (a.status = b.status ∧ pyLe a.active_from b.active_from = true)))

instance : DecidableRel histLE := fun a b => by unfold histLE; infer_instance

/-- `generate_historical_currencies_csv`: builds the rows then applies the
stable multi-key sort of `sort_values`. -/
def generate_historical_currencies_csv (iso3166_data : String → Option CountryInfo)
    (iso4217_data : String → Option CurrencyInfo) (current_date last_updated : String)
    (currency_data : List (String × List CurrencyEntry)) : List HistoricalRow :=
  List.insertionSort histLE
    (historical_rows iso3166_data iso4217_data current_date last_updated currency_data)

/-- One value of the `current_currencies.json` mapping. -/
structure CurrentJson where
  country_name : String
  official_country_name : String
  iso_alpha3_code : String
  currency_code : String
  currency_name : String
  active_since : String
deriving DecidableEq

/-- The loop body of `generate_current_currencies_json` for one region. -/
def current_region_json (iso3166_data : String → Option CountryInfo)
    (iso4217_data : String → Option CurrencyInfo) (current_date : String)
    (rc : String × List CurrencyEntry) : Option (String × CurrentJson) :=
  match iso3166_data rc.1 with
  | none => none
  | some country_info =>
    if is_valid_region rc.1 (some country_info) then
      match determine_current_currency current_date rc.2 with
      | none => none
      | some current_currency =>
        some
          (rc.1,
           { country_name := country_info.name,
             official_country_name := country_info.official_name,
             iso_alpha3_code := country_info.alpha_3,
             currency_code := current_currency.iso4217,
             currency_name :=
               match iso4217_data current_currency.iso4217 with
               | some ci => ci.name
               | none => current_currency.iso4217,
             active_since := pyOr current_currency.from_ "Unknown" })
    else none

/-- `generate_current_currencies_json`: the JSON object is modelled as the
association list of its key/value pairs in insertion order. -/
def generate_current_currencies_json (iso3166_data : String → Option CountryInfo)
    (iso4217_data : String → Option CurrencyInfo) (current_date : String)
    (currency_data : List (String × List CurrencyEntry)) : List (String × CurrentJson) :=
  currency_data.filterMap (current_region_json iso3166_data iso4217_data current_date)

/-- One element of the `currencies` array of `historical_currencies.json`. -/
structure HistoricalJsonCurrency where
  currency_code : String
  currency_name : String
  active_from : String
  active_until : String
  status : String
deriving DecidableEq

/-- One value of the `historical_currencies.json` mapping. -/
structure HistoricalJson where
  country_name : String
  official_country_name : String
  iso_alpha3_code : String
  currencies : List HistoricalJsonCurrency
deriving DecidableEq

/-- The element built by `generate_historical_currencies_json` for one
tender currency entry. -/
def mkHistoricalJsonCurrency (iso4217_data : String → Option CurrencyInfo)
    (current_date : String) (currency : CurrencyEntry) : HistoricalJsonCurrency :=
  { currency_code := currency.iso4217,
    currency_name :=
      match iso4217_data currency.iso4217 with
      | some ci => ci.name
      | none => currency.iso4217,
    active_from := pyOr currency.from_ "Unknown",
    active_until := pyOr currency.to_ "",
    status := historical_status current_date currency }

/-- The loop body of `generate_historical_currencies_json` for one region:
the region is kept only when its currency list is non-empty
(`if currency_list:`). -/
def historical_region_json (iso3166_data : String → Option CountryInfo)
    (iso4217_data : String → Option CurrencyInfo) (current_date : String)
    (rc : String × List CurrencyEntry) : Option (String × HistoricalJson) :=
  match iso3166_data rc.1 with
  | none => none
  | some country_info =>
    if is_valid_region rc.1 (some country_info) then
      let currency_list :=
        (get_all_currencies rc.2).map (mkHistoricalJsonCurrency iso4217_data current_date)
      if currency_list = [] then none
      else
        some
          (rc.1,
           { country_name := country_info.name,
             official_country_name := country_info.official_name,
             iso_alpha3_code := country_info.alpha_3,
             currencies := currency_list })
    else none

/-- `generate_historical_currencies_json`, modelled as the association list
of its key/value pairs in insertion order. -/
def generate_historical_currencies_json (iso3166_data : String → Option CountryInfo)
    (iso4217_data : String → Option CurrencyInfo) (current_date : String)
    (currency_data : List (String × List CurrencyEntry)) : List (String × HistoricalJson) :=
  currency_data.filterMap (historical_region_json iso3166_data iso4217_data current_date)

/-- Masks the generation timestamp of a current-view row. -/
def mask_current_timestamp (row : CurrentRow) : CurrentRow :=
  { row with last_updated := "" }

/-- Masks the generation timestamp of a historical-view row. -/
def mask_historical_timestamp (row : HistoricalRow) : HistoricalRow :=
  { row with last_updated := "" }

/-- Spec-side predicate of claim C2 (from the words of the spec): the entry is
tender and its end date is absent or on/after the current date. -/
def qualifies_as_current (current_date : String) (currency : CurrencyEntry) : Bool :=
  (!(currency.tender == "false")) &&
    (match currency.to_ with
     | none => true
     | some to_date => pyLe current_date to_date)

/-- Concrete country record used as test input. -/
def testCountryAA : CountryInfo :=
  { alpha_2 := "AA", alpha_3 := "AAA", name := "Testland",
    official_name := "Republic of Testland" }

/-- Concrete country lookup with the single valid region `"AA"`. -/
def testIso3166 : String → Option CountryInfo :=
  fun code => if code = "AA" then some testCountryAA else none

/-- Concrete country lookup with no records. -/
def testNoCountries : String → Option CountryInfo := fun _ => none

/-- Concrete currency lookup with no records. -/
def testNoCurrencies : String → Option CurrencyInfo := fun _ => none

/-- Concrete entry: tender, dated start, no end date. -/
def entryUSD : CurrencyEntry :=
  { iso4217 := "USD", from_ := some "1792-01-01", to_ := none, tender := "true" }

/-- Concrete entry: tender, ended on 2001-12-31. -/
def entryOld : CurrencyEntry :=
  { iso4217 := "OLD", from_ := some "1990-01-01", to_ := some "2001-12-31",
    tender := "true" }

/-- Concrete entry: tender, started 2002-01-01, no end date. -/
def entryNew : CurrencyEntry :=
  { iso4217 := "NEW", from_ := some "2002-01-01", to_ := none, tender := "true" }

/-- Concrete entry with absent `from` and absent `to`. -/
def entryNoFrom : CurrencyEntry :=
  { iso4217 := "XCD", from_ := none, to_ := none, tender := "true" }

/-- Concrete entry whose tender flag is the string `"False"` (capital F). -/
def entryCapsFalse : CurrencyEntry :=
  { iso4217 := "USD", from_ := none, to_ := none, tender := "False" }

/-! ## Order-theoretic facts about the Python string comparison -/

theorem charsLt_irrefl : ∀ a : List Char, charsLt a a = false
  | [] => rfl
  | _ :: as => by simp [charsLt, lt_irrefl, charsLt_irrefl as]

theorem charsLt_trans :
    ∀ a b c : List Char, charsLt a b = true → charsLt b c = true → charsLt a c = true := by
  intro a
  induction a with
  | nil =>
    intro b c h1 h2
    cases b with
    | nil => simp [charsLt] at h1
    | cons y ys =>
      cases c with
      | nil => simp [charsLt] at h2
      | cons z zs => simp [charsLt]
  | cons x xs ih =>
    intro b c h1 h2
    cases b with
    | nil => simp [charsLt] at h1
    | cons y ys =>
      cases c with
      | nil => simp [charsLt] at h2
      | cons z zs =>
        simp only [charsLt] at h1 h2 ⊢
        rcases lt_trichotomy x y with hxy | hxy | hxy
        · rcases lt_trichotomy y z with hyz | hyz | hyz
          · simp [lt_trans hxy hyz]
          · subst hyz; simp [hxy]
          · simp [asymm hyz, hyz] at h2
        · subst hxy
          simp only [lt_irrefl, if_false] at h1
          rcases lt_trichotomy x z with hxz | hxz | hxz
          · simp [hxz]
          · subst hxz
            simp only [lt_irrefl, if_false] at h2 ⊢
            exact ih ys zs h1 h2
          · simp [asymm hxz, hxz] at h2
        · simp [asymm hxy, hxy] at h1

theorem charsLt_trichotomy :
    ∀ a b : List Char, charsLt a b = true ∨ a = b ∨ charsLt b a = true := by
  intro a
  induction a with
  | nil =>
    intro b
    cases b with
    | nil => exact Or.inr (Or.inl rfl)
    | cons y ys => exact Or.inl (by simp [charsLt])
  | cons x xs ih =>
    intro b
    cases b with
    | nil => exact Or.inr (Or.inr (by simp [charsLt]))
    | cons y ys =>
      rcases lt_trichotomy x y with h | h | h
      · exact Or.inl (by simp [charsLt, h])
      · subst h
        rcases ih ys with h2 | h2 | h2
        · exact Or.inl (by simp [charsLt, lt_irrefl, h2])
        · exact Or.inr (Or.inl (by rw [h2]))
        · exact Or.inr (Or.inr (by simp [charsLt, lt_irrefl, h2]))
      · exact Or.inr (Or.inr (by simp [charsLt, h]))

theorem pyLt_irrefl (a : String) : pyLt a a = false := charsLt_irrefl a.data

theorem pyLt_trans {a b c : String} (h1 : pyLt a b = true) (h2 : pyLt b c = true) :
    pyLt a c = true := charsLt_trans _ _ _ h1 h2

theorem pyLt_trichotomy (a b : String) : pyLt a b = true ∨ a = b ∨ pyLt b a = true := by
  rcases charsLt_trichotomy a.data b.data with h | h | h
  · exact Or.inl h
  · exact Or.inr (Or.inl (String.ext h))
  · exact Or.inr (Or.inr h)

theorem pyLt_asymm {a b : String} (h : pyLt a b = true) : pyLt b a = false := by
  cases h2 : pyLt b a with
  | false => rfl
  | true => have := pyLt_trans h h2; rw [pyLt_irrefl] at this; exact absurd this (by simp)

theorem pyLe_refl (a : String) : pyLe a a = true := by
  simp [pyLe, pyLt_irrefl]

theorem pyLe_total (a b : String) : pyLe a b = true ∨ pyLe b a = true := by
  rcases pyLt_trichotomy a b with h | h | h
  · exact Or.inl (by simp [pyLe, pyLt_asymm h])
  · exact Or.inl (by rw [h]; exact pyLe_refl b)
  · exact Or.inr (by simp [pyLe, pyLt_asymm h])

theorem pyLe_trans {a b c : String} (h1 : pyLe a b = true) (h2 : pyLe b c = true) :
    pyLe a c = true := by
  rw [pyLe, Bool.not_eq_true'] at h1 h2 ⊢
  cases hca : pyLt c a with
  | false => rfl
  | true =>
    exfalso
    rcases pyLt_trichotomy c b with h | h | h
    · rw [h] at h2; exact Bool.false_ne_true h2.symm
    · subst h; rw [hca] at h1; exact Bool.false_ne_true h1.symm
    · have := pyLt_trans h hca; rw [this] at h1; exact Bool.false_ne_true h1.symm

theorem pyLe_of_pyLt {a b : String} (h : pyLt a b = true) : pyLe a b = true := by
  simp [pyLe, pyLt_asymm h]

instance : IsTrans CurrencyEntry fromLE :=
  ⟨fun _ _ _ h1 h2 => pyLe_trans h1 h2⟩

instance : IsTotal CurrencyEntry fromLE :=
  ⟨fun a b => pyLe_total (fromKey a) (fromKey b)⟩

instance : IsTrans HistoricalRow histLE := by
  constructor
  intro a b c hab hbc
  rcases hab with h1 | ⟨e1, h1⟩
  · rcases hbc with h2 | ⟨e2, h2⟩
    · exact Or.inl (pyLt_trans h1 h2)
    · exact Or.inl (e2 ▸ h1)
  · rcases hbc with h2 | ⟨e2, h2⟩
    · exact Or.inl (e1 ▸ h2)
    · refine Or.inr ⟨e1.trans e2, ?_⟩
      rcases h1 with s1 | ⟨f1, g1⟩
      · rcases h2 with s2 | ⟨f2, g2⟩
        · exact Or.inl (pyLt_trans s2 s1)
        · exact Or.inl (f2 ▸ s1)
      · rcases h2 with s2 | ⟨f2, g2⟩
        · exact Or.inl (f1 ▸ s2)
        · exact Or.inr ⟨f1.trans f2, pyLe_trans g1 g2⟩

instance : IsTotal HistoricalRow histLE := by
  constructor
  intro a b
  rcases pyLt_trichotomy a.country_code b.country_code with h | h | h
  · exact Or.inl (Or.inl h)
  · rcases pyLt_trichotomy b.status a.status with h2 | h2 | h2
    · exact Or.inl (Or.inr ⟨h, Or.inl h2⟩)
    · rcases pyLe_total a.active_from b.active_from with h3 | h3
      · exact Or.inl (Or.inr ⟨h, Or.inr ⟨h2.symm, h3⟩⟩)
      · exact Or.inr (Or.inr ⟨h.symm, Or.inr ⟨h2, h3⟩⟩)
    · exact Or.inr (Or.inr ⟨h.symm, Or.inl h2⟩)
  · exact Or.inr (Or.inl h)

/-! ## Masking the generation timestamp -/

theorem orderedInsert_mask (a : HistoricalRow) (l : List HistoricalRow) :
    List.orderedInsert histLE (mask_historical_timestamp a) (l.map mask_historical_timestamp)
      = (List.orderedInsert histLE a l).map mask_historical_timestamp := by
  induction l with
  | nil => rfl
  | cons b l ih =>
    simp only [List.map_cons, List.orderedInsert]
    by_cases h : histLE a b
    · rw [if_pos h,
        if_pos (show histLE (mask_historical_timestamp a) (mask_historical_timestamp b) from h)]
      simp [List.map_cons]
    · rw [if_neg h,
        if_neg (show ¬ histLE (mask_historical_timestamp a) (mask_historical_timestamp b) from h)]
      simp only [List.map_cons, ih]

theorem insertionSort_mask (l : List HistoricalRow) :
    List.insertionSort histLE (l.map mask_historical_timestamp)
      = (List.insertionSort histLE l).map mask_historical_timestamp := by
  induction l with
  | nil => rfl
  | cons a l ih => simp only [List.map_cons, List.insertionSort, ih, orderedInsert_mask]

theorem historical_region_rows_mask (iso3166_data : String → Option CountryInfo)
    (iso4217_data : String → Option CurrencyInfo) (current_date ts : String)
    (rc : String × List CurrencyEntry) :
    (historical_region_rows iso3166_data iso4217_data current_date ts rc).map
        mask_historical_timestamp
      = historical_region_rows iso3166_data iso4217_data current_date "" rc := by
  unfold historical_region_rows
  cases iso3166_data rc.1 with
  | none => rfl
  | some ci =>
    dsimp only
    by_cases h : is_valid_region rc.1 (some ci)
    · rw [if_pos h, if_pos h, List.map_map]
      rfl
    · rw [if_neg h, if_neg h]
      rfl

theorem historical_rows_mask (iso3166_data : String → Option CountryInfo)
    (iso4217_data : String → Option CurrencyInfo) (current_date ts : String)
    (currency_data : List (String × List CurrencyEntry)) :
    (historical_rows iso3166_data iso4217_data current_date ts currency_data).map
        mask_historical_timestamp
      = historical_rows iso3166_data iso4217_data current_date "" currency_data := by
  induction currency_data with
  | nil => rfl
  | cons rc rest ih =>
    simp only [historical_rows, List.flatMap_cons, List.map_append] at ih ⊢
    rw [historical_region_rows_mask, ih]

theorem current_region_row_mask (iso3166_data : String → Option CountryInfo)
    (iso4217_data : String → Option CurrencyInfo) (current_date ts : String)
    (rc : String × List CurrencyEntry) :
    (current_region_row iso3166_data iso4217_data current_date ts rc).map
        mask_current_timestamp
      = current_region_row iso3166_data iso4217_data current_date "" rc := by
  unfold current_region_row
  cases iso3166_data rc.1 with
  | none => rfl
  | some ci =>
    dsimp only
    by_cases h : is_valid_region rc.1 (some ci)
    · rw [if_pos h, if_pos h]
      cases determine_current_currency current_date rc.2 with
      | none => rfl
      | some cur => rfl
    · rw [if_neg h, if_neg h]
      rfl

theorem generate_current_csv_mask (iso3166_data : String → Option CountryInfo)
    (iso4217_data : String → Option CurrencyInfo) (current_date ts : String)
    (currency_data : List (String × List CurrencyEntry)) :
    (generate_current_currencies_csv iso3166_data iso4217_data current_date ts
        currency_data).map mask_current_timestamp
      = generate_current_currencies_csv iso3166_data iso4217_data current_date ""
          currency_data := by
  unfold generate_current_currencies_csv
  rw [List.map_filterMap]
  congr 1
  funext rc
  exact current_region_row_mask iso3166_data iso4217_data current_date ts rc

theorem generate_historical_csv_mask (iso3166_data : String → Option CountryInfo)
    (iso4217_data : String → Option CurrencyInfo) (current_date ts : String)
    (currency_data : List (String × List CurrencyEntry)) :
    (generate_historical_currencies_csv iso3166_data iso4217_data current_date ts
        currency_data).map mask_historical_timestamp
      = generate_historical_currencies_csv iso3166_data iso4217_data current_date ""
          currency_data := by
  unfold generate_historical_currencies_csv
  rw [← historical_rows_mask iso3166_data iso4217_data current_date ts currency_data,
    insertionSort_mask]

/-! ## Characterizations of the generators -/

theorem current_region_row_sound {iso3166_data : String → Option CountryInfo}
    {iso4217_data : String → Option CurrencyInfo} {current_date ts : String}
    {rc : String × List CurrencyEntry} {row : CurrentRow}
    (h : current_region_row iso3166_data iso4217_data current_date ts rc = some row) :
    row.country_code = rc.1 ∧ is_valid_region rc.1 (iso3166_data rc.1) = true := by
  unfold current_region_row at h
  split at h
  · exact absurd h (by simp)
  · rename_i ci heq
    split at h
    · rename_i hv
      split at h
      · exact absurd h (by simp)
      · rename_i cur hd
        injection h with h
        subst h
        exact ⟨rfl, by rw [heq]; exact hv⟩
    · exact absurd h (by simp)

theorem current_region_json_sound {iso3166_data : String → Option CountryInfo}
    {iso4217_data : String → Option CurrencyInfo} {current_date : String}
    {rc : String × List CurrencyEntry} {p : String × CurrentJson}
    (h : current_region_json iso3166_data iso4217_data current_date rc = some p) :
    p.1 = rc.1 ∧ is_valid_region rc.1 (iso3166_data rc.1) = true := by
  unfold current_region_json at h
  split at h
  · exact absurd h (by simp)
  · rename_i ci heq
    split at h
    · rename_i hv
      split at h
      · exact absurd h (by simp)
      · rename_i cur hd
        injection h with h
        subst h
        exact ⟨rfl, by rw [heq]; exact hv⟩
    · exact absurd h (by simp)

theorem historical_region_json_sound {iso3166_data : String → Option CountryInfo}
    {iso4217_data : String → Option CurrencyInfo} {current_date : String}
    {rc : String × List CurrencyEntry} {p : String × HistoricalJson}
    (h : historical_region_json iso3166_data iso4217_data current_date rc = some p) :
    p.1 = rc.1 ∧ is_valid_region rc.1 (iso3166_data rc.1) = true := by
  unfold historical_region_json at h
  split at h
  · exact absurd h (by simp)
  · rename_i ci heq
    split at h
    · rename_i hv
      dsimp only at h
      split at h
      · exact absurd h (by simp)
      · injection h with h
        subst h
        exact ⟨rfl, by rw [heq]; exact hv⟩
    · exact absurd h (by simp)

theorem mem_historical_region_rows {iso3166_data : String → Option CountryInfo}
    {iso4217_data : String → Option CurrencyInfo} {current_date ts : String}
    {rc : String × List CurrencyEntry} {row : HistoricalRow} :
    row ∈ historical_region_rows iso3166_data iso4217_data current_date ts rc ↔
      ∃ ci c, iso3166_data rc.1 = some ci ∧ is_valid_region rc.1 (some ci) = true ∧
        c ∈ get_all_currencies rc.2 ∧
        row = mkHistoricalRow iso4217_data current_date ts rc.1 ci c := by
  unfold historical_region_rows
  cases heq : iso3166_data rc.1 with
  | none => simp
  | some ci =>
    dsimp only
    by_cases hv : is_valid_region rc.1 (some ci)
    · rw [if_pos hv]
      simp only [List.mem_map]
      constructor
      · rintro ⟨c, hc, rfl⟩
        exact ⟨ci, c, rfl, hv, hc, rfl⟩
      · rintro ⟨ci2, c, hci, hv2, hc, hrow⟩
        injection hci with hci
        subst hci
        exact ⟨c, hc, hrow.symm⟩
    · rw [if_neg hv]
      simp only [List.not_mem_nil, false_iff]
      rintro ⟨ci2, c, hci, hv2, -, -⟩
      injection hci with hci
      subst hci
      exact hv hv2

theorem mem_generate_historical_csv {iso3166_data : String → Option CountryInfo}
    {iso4217_data : String → Option CurrencyInfo} {current_date ts : String}
    {currency_data : List (String × List CurrencyEntry)} {row : HistoricalRow} :
    row ∈ generate_historical_currencies_csv iso3166_data iso4217_data current_date ts
        currency_data ↔
      ∃ rc ∈ currency_data,
        row ∈ historical_region_rows iso3166_data iso4217_data current_date ts rc := by
  unfold generate_historical_currencies_csv
  rw [List.Perm.mem_iff (List.perm_insertionSort histLE _)]
  unfold historical_rows
  exact List.mem_flatMap

theorem historical_region_json_of {iso3166_data : String → Option CountryInfo}
    {iso4217_data : String → Option CurrencyInfo} {current_date : String}
    {rc : String × List CurrencyEntry} {ci : CountryInfo}
    (hci : iso3166_data rc.1 = some ci)
    (hv : is_valid_region rc.1 (some ci) = true)
    (hne : get_all_currencies rc.2 ≠ []) :
    historical_region_json iso3166_data iso4217_data current_date rc =
      some (rc.1,
        { country_name := ci.name, official_country_name := ci.official_name,
          iso_alpha3_code := ci.alpha_3,
          currencies :=
            (get_all_currencies rc.2).map
              (mkHistoricalJsonCurrency iso4217_data current_date) }) := by
  unfold historical_region_json
  rw [hci]
  dsimp only
  rw [if_pos hv, if_neg (by simpa using hne)]

theorem historical_region_json_inv {iso3166_data : String → Option CountryInfo}
    {iso4217_data : String → Option CurrencyInfo} {current_date : String}
    {rc : String × List CurrencyEntry} {r : String} {e : HistoricalJson}
    (h : historical_region_json iso3166_data iso4217_data current_date rc = some (r, e)) :
    rc.1 = r ∧
      ∃ ci, iso3166_data rc.1 = some ci ∧ is_valid_region rc.1 (some ci) = true ∧
        get_all_currencies rc.2 ≠ [] ∧
        e.currencies =
          (get_all_currencies rc.2).map (mkHistoricalJsonCurrency iso4217_data current_date) := by
  unfold historical_region_json at h
  split at h
  · exact absurd h (by simp)
  · rename_i ci heq
    split at h
    · rename_i hv
      dsimp only at h
      split at h
      · exact absurd h (by simp)
      · rename_i hl
        injection h with h
        injection h with h1 h2
        subst h2
        exact ⟨h1, ci, heq, hv, by simpa using hl, rfl⟩
    · exact absurd h (by simp)

/-! ## Claims about the Currency Resolver -/

/-- Claim C2: for every list of currency-validity entries (with well-formed
optional end dates, i.e. a present `to` is a non-empty date string) and
every current date, `determine_current_currency` returns the first entry in
the given order of the list that is tender and whose end date is absent or
on/after the current date, and returns `none` when no entry qualifies. -/
theorem determine_current_currency_eq_find (current_date : String)
    (currencies : List CurrencyEntry) (h : ∀ c ∈ currencies, c.to_ ≠ some "") :
    determine_current_currency current_date currencies
      = currencies.find? (qualifies_as_current current_date) := by
  induction currencies with
  | nil => rfl
  | cons c rest ih =>
    have hc : c.to_ ≠ some "" := h c (List.mem_cons_self c rest)
    have hrest : ∀ x ∈ rest, x.to_ ≠ some "" := fun x hx => h x (List.mem_cons_of_mem c hx)
    unfold determine_current_currency
    by_cases ht : c.tender = "false"
    · rw [if_pos ht, ih hrest, List.find?_cons_of_neg]
      simp [qualifies_as_current, ht]
    · rw [if_neg ht]
      cases hto : c.to_ with
      | none =>
        rw [List.find?_cons_of_pos]
        simp [qualifies_as_current, ht, hto]
      | some t =>
        have ht2 : ¬ t = "" := fun he => hc (by rw [hto, he])
        dsimp only
        rw [if_neg ht2]
        by_cases hle : pyLe current_date t = true
        · rw [if_pos hle, List.find?_cons_of_pos]
          simp [qualifies_as_current, ht, hto, hle]
        · rw [if_neg hle, ih hrest, List.find?_cons_of_neg]
          simp [qualifies_as_current, ht, hto, hle]

/-- Witness for C2 at a concrete input. -/
theorem determine_current_currency_eq_find_witness :
    (∀ c ∈ [entryOld, entryNew], c.to_ ≠ some "") ∧
      determine_current_currency "2025-06-01" [entryOld, entryNew]
        = List.find? (qualifies_as_current "2025-06-01") [entryOld, entryNew] :=
  ⟨by decide,
   determine_current_currency_eq_find "2025-06-01" [entryOld, entryNew] (by decide)⟩

/-- Claim C4: whenever `determine_current_currency` returns an entry, that
tender flag of that entry is not `"false"`. -/
theorem determine_current_currency_never_nontender (current_date : String)
    (currencies : List CurrencyEntry) (c : CurrencyEntry)
    (h : determine_current_currency current_date currencies = some c) :
    ¬ c.tender = "false" := by
  induction currencies with
  | nil => simp [determine_current_currency] at h
  | cons x rest ih =>
    unfold determine_current_currency at h
    split at h
    · exact ih h
    · rename_i hx
      split at h
      · injection h with h
        subst h
        exact hx
      · split at h
        · injection h with h
          subst h
          exact hx
        · split at h
          · injection h with h
            subst h
            exact hx
          · exact ih h

/-- Witness for C4 at a concrete input. -/
theorem determine_current_currency_never_nontender_witness :
    determine_current_currency "2025-06-01" [entryUSD] = some entryUSD ∧
      ¬ entryUSD.tender = "false" :=
  ⟨by decide,
   determine_current_currency_never_nontender "2025-06-01" [entryUSD] entryUSD (by decide)⟩

/-- Claim C3: `get_all_currencies` returns exactly the entries whose tender
flag is not `"false"` (as a permutation of the filtered list) and its output
is pairwise non-decreasing in the `fromKey` order, where an absent `from`
is keyed `"0000-01-01"`, the minimum date in `YYYY-MM-DD` form. -/
theorem get_all_currencies_tender_and_sorted (currencies : List CurrencyEntry) :
    (get_all_currencies currencies).Perm
        (currencies.filter fun c => ¬ c.tender = "false") ∧
      List.Pairwise fromLE (get_all_currencies currencies) :=
  ⟨List.perm_insertionSort fromLE _, List.sorted_insertionSort fromLE _⟩

/-- Claim C9: when loading the reference dataset fails, both reference
loaders return the empty mapping (total functions: no exception escapes). -/
theorem reference_loader_empty_on_failure (e : String) :
    fetch_iso3166_data (Except.error e) = [] ∧ fetch_iso4217_data (Except.error e) = [] :=
  ⟨rfl, rfl⟩

/-- Claim C10: the resolvers treat an entry as non-tender only when its
tender field is exactly `"false"`: any entry with a different tender string
can be returned by `determine_current_currency` and is kept by
`get_all_currencies`. -/
theorem tender_flag_only_exact_false_excluded (e : CurrencyEntry) (current_date : String)
    (l : List CurrencyEntry) (h : ¬ e.tender = "false") :
    (e.to_ = none → determine_current_currency current_date [e] = some e) ∧
      (e ∈ l → e ∈ get_all_currencies l) := by
  constructor
  · intro hto
    unfold determine_current_currency
    rw [if_neg h, hto]
  · intro hmem
    unfold get_all_currencies
    refine ((List.perm_insertionSort fromLE _).mem_iff).mpr ?_
    exact List.mem_filter.mpr ⟨hmem, by simpa using h⟩

/-- Witness for C10 at a concrete input whose tender flag is `"False"`. -/
theorem tender_flag_only_exact_false_excluded_witness :
    (¬ entryCapsFalse.tender = "false") ∧
      (determine_current_currency "2025-06-01" [entryCapsFalse] = some entryCapsFalse ∧
        entryCapsFalse ∈ get_all_currencies [entryCapsFalse]) :=
  ⟨by decide,
   ⟨(tender_flag_only_exact_false_excluded entryCapsFalse "2025-06-01" [entryCapsFalse]
       (by decide)).1 rfl,
    (tender_flag_only_exact_false_excluded entryCapsFalse "2025-06-01" [entryCapsFalse]
       (by decide)).2 (by decide)⟩⟩

/-! ## Claims about the View Generator -/

/-- Claim C7: two runs of the view generation over the same input document,
reference data and current date yield identical row lists, in content and
order, for both the current and the historical CSV views once the
generation-timestamp field is masked; the timestamp parameter is the only
run-dependent input of the generators. -/
theorem generation_deterministic_after_masking (iso3166_data : String → Option CountryInfo)
    (iso4217_data : String → Option CurrencyInfo) (current_date : String)
    (currency_data : List (String × List CurrencyEntry)) (ts₁ ts₂ : String) :
    (generate_current_currencies_csv iso3166_data iso4217_data current_date ts₁
          currency_data).map mask_current_timestamp
        = (generate_current_currencies_csv iso3166_data iso4217_data current_date ts₂
            currency_data).map mask_current_timestamp ∧
      (generate_historical_currencies_csv iso3166_data iso4217_data current_date ts₁
          currency_data).map mask_historical_timestamp
        = (generate_historical_currencies_csv iso3166_data iso4217_data current_date ts₂
            currency_data).map mask_historical_timestamp :=
  ⟨(generate_current_csv_mask iso3166_data iso4217_data current_date ts₁
        currency_data).trans
      (generate_current_csv_mask iso3166_data iso4217_data current_date ts₂
        currency_data).symm,
   (generate_historical_csv_mask iso3166_data iso4217_data current_date ts₁
        currency_data).trans
      (generate_historical_csv_mask iso3166_data iso4217_data current_date ts₂
        currency_data).symm⟩

/-- Claim C5: a region whose country record is missing, or whose resolved
country name is empty or `"Unknown"`, contributes no rows or entries to any
of the four generated views. -/
theorem invalid_region_contributes_no_rows (iso3166_data : String → Option CountryInfo)
    (iso4217_data : String → Option CurrencyInfo) (current_date ts r : String)
    (currency_data : List (String × List CurrencyEntry))
    (h : iso3166_data r = none ∨
      ∃ ci, iso3166_data r = some ci ∧ (ci.name = "" ∨ ci.name = "Unknown")) :
    (∀ row ∈ generate_current_currencies_csv iso3166_data iso4217_data current_date ts
        currency_data, row.country_code ≠ r) ∧
      (∀ row ∈ generate_historical_currencies_csv iso3166_data iso4217_data current_date ts
          currency_data, row.country_code ≠ r) ∧
      (∀ p ∈ generate_current_currencies_json iso3166_data iso4217_data current_date
          currency_data, p.1 ≠ r) ∧
      (∀ p ∈ generate_historical_currencies_json iso3166_data iso4217_data current_date
          currency_data, p.1 ≠ r) := by
  have hval : is_valid_region r (iso3166_data r) = false := by
    rcases h with h | ⟨ci, hci, hname⟩
    · rw [h]; rfl
    · rw [hci]
      rcases hname with h2 | h2 <;> simp [is_valid_region, h2]
  refine ⟨?_, ?_, ?_, ?_⟩
  · intro row hrow hr
    unfold generate_current_currencies_csv at hrow
    obtain ⟨rc, hrc, hsome⟩ := List.mem_filterMap.mp hrow
    obtain ⟨hcc, hv⟩ := current_region_row_sound hsome
    rw [hcc.symm.trans hr] at hv
    rw [hval] at hv
    exact Bool.false_ne_true hv
  · intro row hrow hr
    obtain ⟨rc, hrc, hmem⟩ := mem_generate_historical_csv.mp hrow
    obtain ⟨ci, c, hci, hv, hc, hrowEq⟩ := mem_historical_region_rows.mp hmem
    subst hrowEq
    have h1 : rc.1 = r := hr
    rw [h1] at hci hv
    rw [hci] at hval
    rw [hval] at hv
    exact Bool.false_ne_true hv
  · intro p hp hr
    unfold generate_current_currencies_json at hp
    obtain ⟨rc, hrc, hsome⟩ := List.mem_filterMap.mp hp
    obtain ⟨hcc, hv⟩ := current_region_json_sound hsome
    rw [hcc.symm.trans hr] at hv
    rw [hval] at hv
    exact Bool.false_ne_true hv
  · intro p hp hr
    unfold generate_historical_currencies_json at hp
    obtain ⟨rc, hrc, hsome⟩ := List.mem_filterMap.mp hp
    obtain ⟨hcc, hv⟩ := historical_region_json_sound hsome
    rw [hcc.symm.trans hr] at hv
    rw [hval] at hv
    exact Bool.false_ne_true hv

/-- Witness for C5 at a concrete input with no country records. -/
theorem invalid_region_contributes_no_rows_witness :
    (testNoCountries "AA" = none ∨
        ∃ ci, testNoCountries "AA" = some ci ∧ (ci.name = "" ∨ ci.name = "Unknown")) ∧
      ((∀ row ∈ generate_current_currencies_csv testNoCountries testNoCurrencies
            "2025-06-01" "T" [("AA", [entryUSD])], row.country_code ≠ "AA") ∧
        (∀ row ∈ generate_historical_currencies_csv testNoCountries testNoCurrencies
            "2025-06-01" "T" [("AA", [entryUSD])], row.country_code ≠ "AA") ∧
        (∀ p ∈ generate_current_currencies_json testNoCountries testNoCurrencies
            "2025-06-01" [("AA", [entryUSD])], p.1 ≠ "AA") ∧
        (∀ p ∈ generate_historical_currencies_json testNoCountries testNoCurrencies
            "2025-06-01" [("AA", [entryUSD])], p.1 ≠ "AA")) :=
  ⟨Or.inl rfl,
   invalid_region_contributes_no_rows testNoCountries testNoCurrencies "2025-06-01" "T" "AA"
     [("AA", [entryUSD])] (Or.inl rfl)⟩

/-- Claim C1 (evidence of the code bug): for a region with one ended and one
current tender currency, the sorted historical CSV view places the
`Historical` row BEFORE the `Active` row, because `sort_values` sorts the
status column descending and `"Historical" > "Active"`; the claim, the spec
and the comment in the code itself ("active currencies first") all require the
`Active` row first. -/
theorem historical_csv_orders_historical_before_active :
    (generate_historical_currencies_csv testIso3166 testNoCurrencies "2025-06-01" "T"
          [("AA", [entryOld, entryNew])]).map (fun row => (row.currency_code, row.status))
      = [("OLD", "Historical"), ("NEW", "Active")] := by decide

/-- Claim C8 counterexample: at a region whose only entry has absent `from`
and absent `to`, the historical CSV row renders `active_from` as
`"Unknown"`, not the empty string, so the claim that an absent `validFrom`
is rendered as the empty string fails (the `to` side is indeed empty). -/
theorem historical_absent_from_renders_unknown_cex :
    ((generate_historical_currencies_csv testIso3166 testNoCurrencies "2025-06-01" "T"
          [("AA", [entryNoFrom])]).map (fun row => (row.active_from, row.active_until))
        = [("Unknown", "")]) ∧
      ¬ (∀ row ∈ generate_historical_currencies_csv testIso3166 testNoCurrencies "2025-06-01"
          "T" [("AA", [entryNoFrom])], row.active_from = "") := by decide

/-- Claim C8 (amended): in every historical-view row, an absent `from` is
rendered as `"Unknown"` and an absent `to` is rendered as the empty string;
`mkHistoricalRow` is the rendering applied to every row of the historical
view. -/
theorem historical_row_absent_date_rendering
    (iso4217_data : String → Option CurrencyInfo)
    (current_date ts region_code : String) (ci : CountryInfo) (c : CurrencyEntry) :
    (c.from_ = none →
        (mkHistoricalRow iso4217_data current_date ts region_code ci c).active_from
          = "Unknown") ∧
      (c.to_ = none →
        (mkHistoricalRow iso4217_data current_date ts region_code ci c).active_until
          = "") := by
  constructor
  · intro h
    simp [mkHistoricalRow, pyOr, h]
  · intro h
    simp [mkHistoricalRow, pyOr, h]

/-- Witness for the amended C8 at a concrete entry with absent dates. -/
theorem historical_row_absent_date_rendering_witness :
    entryNoFrom.from_ = none ∧ entryNoFrom.to_ = none ∧
      (mkHistoricalRow testNoCurrencies "2025-06-01" "T" "AA" testCountryAA
          entryNoFrom).active_from = "Unknown" ∧
      (mkHistoricalRow testNoCurrencies "2025-06-01" "T" "AA" testCountryAA
          entryNoFrom).active_until = "" :=
  ⟨rfl, rfl,
   (historical_row_absent_date_rendering testNoCurrencies "2025-06-01" "T" "AA" testCountryAA
       entryNoFrom).1 rfl,
   (historical_row_absent_date_rendering testNoCurrencies "2025-06-01" "T" "AA" testCountryAA
       entryNoFrom).2 rfl⟩

/-- Claim C6: every region code appearing in the historical JSON view also
appears among the rows of the historical CSV view, and a currency code is
listed for that region in the JSON view exactly when some CSV row of that
region carries it (same currency set in both views). -/
theorem historical_json_region_in_csv_same_currencies
    (iso3166_data : String → Option CountryInfo)
    (iso4217_data : String → Option CurrencyInfo) (current_date ts r : String)
    (currency_data : List (String × List CurrencyEntry))
    (h : ∃ e, (r, e) ∈ generate_historical_currencies_json iso3166_data iso4217_data
        current_date currency_data) :
    (∃ row ∈ generate_historical_currencies_csv iso3166_data iso4217_data current_date ts
        currency_data, row.country_code = r) ∧
      ∀ code,
        (∃ e, (r, e) ∈ generate_historical_currencies_json iso3166_data iso4217_data
            current_date currency_data ∧
            code ∈ e.currencies.map (fun x => x.currency_code)) ↔
          (∃ row ∈ generate_historical_currencies_csv iso3166_data iso4217_data current_date
              ts currency_data, row.country_code = r ∧ row.currency_code = code) := by
  constructor
  · obtain ⟨e, he⟩ := h
    unfold generate_historical_currencies_json at he
    obtain ⟨rc, hrc, hsome⟩ := List.mem_filterMap.mp he
    obtain ⟨hr1, ci, hci, hv, hne, hcur⟩ := historical_region_json_inv hsome
    obtain ⟨c, hc⟩ : ∃ c, c ∈ get_all_currencies rc.2 := by
      cases hg : get_all_currencies rc.2 with
      | nil => exact absurd hg hne
      | cons a l => exact ⟨a, List.mem_cons_self a l⟩
    refine ⟨mkHistoricalRow iso4217_data current_date ts rc.1 ci c, ?_, hr1⟩
    refine mem_generate_historical_csv.mpr ⟨rc, hrc, ?_⟩
    exact mem_historical_region_rows.mpr ⟨ci, c, hci, hv, hc, rfl⟩
  · intro code
    constructor
    · rintro ⟨e, he, hcode⟩
      unfold generate_historical_currencies_json at he
      obtain ⟨rc, hrc, hsome⟩ := List.mem_filterMap.mp he
      obtain ⟨hr1, ci, hci, hv, hne, hcur⟩ := historical_region_json_inv hsome
      rw [hcur, List.map_map] at hcode
      obtain ⟨c, hc, hcc⟩ := List.mem_map.mp hcode
      refine ⟨mkHistoricalRow iso4217_data current_date ts rc.1 ci c, ?_, hr1, hcc⟩
      exact mem_generate_historical_csv.mpr
        ⟨rc, hrc, mem_historical_region_rows.mpr ⟨ci, c, hci, hv, hc, rfl⟩⟩
    · rintro ⟨row, hrow, hcc, hcode⟩
      obtain ⟨rc, hrc, hmem⟩ := mem_generate_historical_csv.mp hrow
      obtain ⟨ci, c, hci, hv, hc, hrowEq⟩ := mem_historical_region_rows.mp hmem
      subst hrowEq
      have hne : get_all_currencies rc.2 ≠ [] := by
        intro hnil
        rw [hnil] at hc
        exact List.not_mem_nil c hc
      refine ⟨{ country_name := ci.name, official_country_name := ci.official_name,
                iso_alpha3_code := ci.alpha_3,
                currencies := (get_all_currencies rc.2).map
                  (mkHistoricalJsonCurrency iso4217_data current_date) }, ?_, ?_⟩
      · unfold generate_historical_currencies_json
        refine List.mem_filterMap.mpr ⟨rc, hrc, ?_⟩
        rw [historical_region_json_of hci hv hne]
        rw [show rc.1 = r from hcc]
      · rw [List.map_map]
        exact List.mem_map.mpr ⟨c, hc, hcode⟩

/-- Witness for C6 at a concrete input whose historical JSON view contains
the region `"AA"`. -/
theorem historical_json_region_in_csv_same_currencies_witness :
    (∃ row ∈ generate_historical_currencies_csv testIso3166 testNoCurrencies "2025-06-01"
        "T" [("AA", [entryOld, entryNew])], row.country_code = "AA") ∧
      ∀ code,
        (∃ e, ("AA", e) ∈ generate_historical_currencies_json testIso3166 testNoCurrencies
            "2025-06-01" [("AA", [entryOld, entryNew])] ∧
            code ∈ e.currencies.map (fun x => x.currency_code)) ↔
          (∃ row ∈ generate_historical_currencies_csv testIso3166 testNoCurrencies
              "2025-06-01" "T" [("AA", [entryOld, entryNew])], row.country_code = "AA" ∧
              row.currency_code = code) :=
  historical_json_region_in_csv_same_currencies testIso3166 testNoCurrencies "2025-06-01" "T"
    "AA" [("AA", [entryOld, entryNew])]
    ⟨{ country_name := "Testland", official_country_name := "Republic of Testland",
       iso_alpha3_code := "AAA",
       currencies :=
        [{ currency_code := "OLD", currency_name := "OLD", active_from := "1990-01-01",
           active_until := "2001-12-31", status := "Historical" },
         { currency_code := "NEW", currency_name := "NEW", active_from := "2002-01-01",
           active_until := "", status := "Active" }] }, by decide⟩
